import Mathlib

/-!
Verification development for the `abstergo-ai-agent` control loop and
plan/action pipeline.

The Python sources under `src/agent/` (`actions.py`, `controller.py`,
`state.py`, `loop.py`, and the planners `gemini.py` /
`openai_compat_vlm.py`) are embedded shallowly:

* Python floats are modelled as exact rationals (`ℚ`).  The repository
  only manipulates small decimal constants, so exact-rational semantics
  coincides with the float semantics at every point a theorem touches;
  `inf`/`nan` and binary rounding are outside the model.  All rational
  arithmetic inside executable definitions is written through `mkRat` on
  numerators/denominators (`qAdd`, `qSub`, `qMul`, ...) so that every
  definition evaluates by kernel reduction; bridge lemmas relate these
  operations to `+`, `-`, `*` on `ℚ`.
* Python `int` is `ℤ`; `int(x)` truncates toward zero (`pyTrunc`).
* JSON / Python dynamic values are the inductive `JVal`; a Python dict
  is an association list `List (String × JVal)` (keys are unique in any
  dict produced by `json.loads`, so first-match lookup is faithful).
* Fallible Python code (expressions that can raise) returns `Option` /
  `Except`: a `none` / `.error` result models an uncaught exception.
* Side effects (Input Adapter calls, `time.sleep`, file writes) are
  emitted as data (`Effect`, `Event` traces) rather than performed.
* `str(x)` for non-string `x` (`pyStr`) and Python float `repr` are
  modelled by injective printers; no theorem depends on the exact digits
  Python would print, only on equality/inequality of the results.
-/

/-- A Python/JSON dynamic value as produced by `json.loads` or built by
the planners: `None`, booleans, numbers (exact rationals), strings,
lists and dicts. -/
inductive JVal where
  | null
  | bool (b : Bool)
  | num (q : ℚ)
  | str (s : String)
  | arr (xs : List JVal)
  | obj (fields : List (String × JVal))

/-- `d.get(k)`: first binding of key `k` in a Python dict modelled as an
association list; `none` models the key being absent. -/
def dictGet (d : List (String × JVal)) (k : String) : Option JVal :=
  (d.find? (fun p => p.1 == k)).map (fun p => p.2)

/-- Python truthiness: `None`, `False`, `0`, `""`, `[]`, `{}` are falsy,
everything else truthy. -/
def pyTruthy : JVal → Bool
  | .null => false
  | .bool b => b
  | .num q => !(q == 0)
  | .str s => !(s == "")
  | .arr xs => !xs.isEmpty
  | .obj fields => !fields.isEmpty

/-- Truthiness of an optional value (absent behaves like `None`). -/
def pyTruthyOpt : Option JVal → Bool
  | some v => pyTruthy v
  | none => false

/-- Rational addition computed on numerators/denominators via `mkRat`
(kernel-reducible; equal to `+` by `qAdd_eq`). -/
def qAdd (a b : ℚ) : ℚ := mkRat (a.num * b.den + b.num * a.den) (a.den * b.den)

/-- Rational subtraction via `mkRat` (equal to `-` by `qSub_eq`). -/
def qSub (a b : ℚ) : ℚ := mkRat (a.num * b.den - b.num * a.den) (a.den * b.den)

/-- Rational multiplication via `mkRat` (equal to `*` by `qMul_eq`). -/
def qMul (a b : ℚ) : ℚ := mkRat (a.num * b.num) (a.den * b.den)

/-- Embedding of an integer as a rational, via `mkRat`. -/
def qOfInt (n : ℤ) : ℚ := mkRat n 1

/-- Embedding of a natural number as a rational, via `mkRat`. -/
def qOfNat (n : ℕ) : ℚ := mkRat n 1

/-- Python `min` on two numbers (returns the first argument on ties). -/
def pyMin (a b : ℚ) : ℚ := if a ≤ b then a else b

/-- Python `max` on two numbers. -/
def pyMax (a b : ℚ) : ℚ := if b ≤ a then a else b

/-- Python `int(x)` on an exact rational: truncation toward zero. -/
def pyTrunc (q : ℚ) : ℤ := Int.tdiv q.num q.den

/-- One decimal digit as a character. -/
def digitChar (n : ℕ) : Char := Char.ofNat (48 + n % 10)

/-- Decimal digits of a natural number (auxiliary, fuel-structural). -/
def natDigitsAux : ℕ → ℕ → List Char → List Char
  | 0, _, acc => acc
  | _ + 1, 0, acc => acc
  | fuel + 1, n, acc => natDigitsAux fuel (n / 10) (digitChar n :: acc)

/-- Decimal representation of a natural number. -/
def natRepr (n : ℕ) : String :=
  if n = 0 then "0" else String.mk (natDigitsAux (n + 1) n [])

/-- Decimal representation of an integer. -/
def intRepr (n : ℤ) : String :=
  if n < 0 then "-" ++ natRepr n.natAbs else natRepr n.natAbs

/-- Injective printer for rationals, standing in for Python's float
`repr` in cache keys (only equality of printed keys matters). -/
def ratRepr (q : ℚ) : String := intRepr q.num ++ "/" ++ natRepr q.den

/-- Python `str(x)` for the dynamic values that can appear in
`ActionStep` fields.  Exact on strings; on other values an injective
stand-in for Python's rendering (no theorem inspects those digits). -/
def pyStr : JVal → String
  | .null => "None"
  | .bool b => if b then "True" else "False"
  | .num q => "num:" ++ ratRepr q
  | .str s => s
  | .arr _ => "list:"
  | .obj _ => "dict:"

/-- `s.lower()` (ASCII case folding, which is all the backoff heuristics
need). -/
def pyLower (s : String) : String := String.mk (s.data.map Char.toLower)

/-- Does `pre` occur as a prefix of `l`? (structural `Bool` version). -/
def listIsPrefix : List Char → List Char → Bool
  | [], _ => true
  | _ :: _, [] => false
  | a :: as, b :: bs => (a == b) && listIsPrefix as bs

/-- Does `needle` occur as a contiguous substring of `hay`? -/
def listContainsSub (needle : List Char) : List Char → Bool
  | [] => listIsPrefix needle []
  | c :: rest => listIsPrefix needle (c :: rest) || listContainsSub needle rest

/-- Python `needle in hay` on strings. -/
def containsSub (hay needle : String) : Bool := listContainsSub needle.data hay.data

/-- Digits of a numeric string chunk as a natural number (`none` if any
character is not a digit). -/
def digitsToNat : List Char → Option ℕ
  | [] => some 0
  | c :: rest =>
      if c.isDigit then
        (digitsToNat rest).map (fun n => (c.toNat - 48) * 10 ^ rest.length + n)
      else none

/-- Python `int(s)` on a string: optional sign followed by at least one
digit (whitespace-trimming and `_` separators are not modelled; no
theorem evaluates them). -/
def strToInt : List Char → Option ℤ
  | '-' :: rest =>
      if rest.isEmpty then none else (digitsToNat rest).map (fun n => -(n : ℤ))
  | '+' :: rest =>
      if rest.isEmpty then none else (digitsToNat rest).map (fun n => (n : ℤ))
  | chars =>
      if chars.isEmpty then none else (digitsToNat chars).map (fun n => (n : ℤ))

/-- Python `float(s)` on a string: optional sign, digits with an
optional single decimal point (`inf`/`nan`/exponents not modelled). -/
def strToFloat (chars : List Char) : Option ℚ :=
  let core : List Char → Option ℚ := fun cs =>
    match cs.splitOn '.' with
    | [ip] => if ip.isEmpty then none else (digitsToNat ip).map (fun n => qOfNat n)
    | [ip, fp] =>
        if ip.isEmpty && fp.isEmpty then none
        else do
          let i ← digitsToNat ip
          let f ← digitsToNat fp
          pure (mkRat (i * 10 ^ fp.length + f) (10 ^ fp.length))
    | _ => none
  match chars with
  | '-' :: rest => (core rest).map (fun q => qSub (qOfNat 0) q)
  | '+' :: rest => core rest
  | cs => core cs

/-- Python `float(x)` on a dynamic value; `none` models the
`TypeError`/`ValueError` it raises on unconvertible input. -/
def pyFloat : JVal → Option ℚ
  | .num q => some q
  | .bool b => some (if b then qOfNat 1 else qOfNat 0)
  | .str s => strToFloat s.data
  | .null => none
  | .arr _ => none
  | .obj _ => none

/-- Python `int(x)` on a dynamic value; truncation toward zero on
numbers, string parsing on strings, `none` models a raised error. -/
def pyInt : JVal → Option ℤ
  | .num q => some (pyTrunc q)
  | .bool b => some (if b then 1 else 0)
  | .str s => strToInt s.data
  | .null => none
  | .arr _ => none
  | .obj _ => none

/-- `f"{x:.2f}"`: two-decimal fixed-point rendering of a rational.
Rounding of the exact value is half-up (Python rounds the nearest
binary float half-to-even; no theorem depends on tie digits). -/
def fmt2 (q : ℚ) : String :=
  let scaled : ℤ := Int.ediv (200 * q.num + q.den) (2 * q.den)
  let sign : String := if scaled < 0 then "-" else ""
  let m : ℕ := scaled.natAbs
  sign ++ natRepr (m / 100) ++ "." ++ (if m % 100 < 10 then "0" else "") ++ natRepr (m % 100)

/-! ## `src/agent/actions.py` -/

/-- The fixed action vocabulary `SUPPORTED_ACTIONS`. -/
def SUPPORTED_ACTIONS : List String :=
  ["MOVE", "CLICK", "DOUBLE_CLICK", "DRAG", "SCROLL", "TYPE", "KEYPRESS", "WAIT", "FOCUS_WINDOW"]

/-- `ActionTarget`: a normalized click target.  `width`/`height` are
stored raw (the source never converts or reads them). -/
structure ActionTarget where
  x : ℚ
  y : ℚ
  width : Option JVal
  height : Option JVal

/-- `ActionStep`: one parsed unit of a plan.  Field names follow the
dataclass; `repeat` is `repeatCount` here because `repeat` is a Lean
tactic keyword.  `rationale`, `expected_outcome`, `text`, `keys` and
`scroll` are stored as the raw dynamic values Python would store. -/
structure ActionStep where
  action : String
  confidence : ℚ
  rationale : JVal
  expected_outcome : JVal
  target : Option ActionTarget
  text : Option JVal
  keys : Option JVal
  scroll : Option JVal
  wait_seconds : ℚ
  repeatCount : ℤ
  hold_ms : ℤ

/-- The two sequential clamping `if` statements of `from_dict`
(`if x < lo: x = lo` then `if x > hi: x = hi`). -/
def clampInt (lo hi x : ℤ) : ℤ := if x < lo then lo else if hi < x then hi else x

/-- The target-parsing step of `from_dict`
(`if target_data := data.get("target")`): a falsy value yields no
target; a truthy dict converts `x`/`y` with `float(...)` (raising on
failure) and stores `width`/`height` raw; a truthy non-dict raises
`AttributeError`.  `none` models a raised exception. -/
def fromDictTarget (data : List (String × JVal)) : Option (Option ActionTarget) :=
  match dictGet data "target" with
  | some tv =>
      if pyTruthy tv then
        match tv with
        | .obj td =>
            (pyFloat ((dictGet td "x").getD (.num 0))).bind (fun x =>
              (pyFloat ((dictGet td "y").getD (.num 0))).map (fun y =>
                some ⟨x, y, dictGet td "width", dictGet td "height"⟩))
        | _ => none
      else some none
  | none => some none

/-- `ActionStep.from_dict`: build a step from a raw dict.  `repeat` and
`hold_ms` are converted with `try/except` defaults and then clamped;
`confidence`, `wait_seconds` and the target coordinates go through bare
`float(...)`, whose failure raises (modelled by `none`). -/
def ActionStep.from_dict (data : List (String × JVal)) : Option ActionStep :=
  (fromDictTarget data).bind (fun target =>
    (pyFloat ((dictGet data "confidence").getD (.num 0))).bind (fun conf =>
      (pyFloat ((dictGet data "wait_seconds").getD (.num 0))).map (fun ws =>
        { action := pyStr ((dictGet data "action").getD (.str "WAIT"))
          confidence := conf
          rationale := (dictGet data "rationale").getD (.str "")
          expected_outcome := (dictGet data "expected_outcome").getD (.str "")
          target := target
          text := dictGet data "text"
          keys := dictGet data "keys"
          scroll := dictGet data "scroll"
          wait_seconds := ws
          repeatCount := clampInt 1 10 ((pyInt ((dictGet data "repeat").getD (.num 1))).getD 1)
          hold_ms := clampInt 0 2000 ((pyInt ((dictGet data "hold_ms").getD (.num 0))).getD 0) })))

/-- `"+".join(keys)` for a raw `keys` value (list of rendered items;
a truthy non-list is rendered through `pyStr` as a stand-in). -/
def joinKeys : JVal → String
  | .arr xs => String.intercalate "+" (xs.map pyStr)
  | v => pyStr v

/-- `ActionStep.summary`: the human-readable summary string. -/
def ActionStep.summary (s : ActionStep) : String :=
  let target_desc : String :=
    match s.target with
    | some t => " @ (" ++ fmt2 t.x ++ "," ++ fmt2 t.y ++ ")"
    | none => ""
  if s.action == "KEYPRESS" && pyTruthyOpt s.keys then
    let ks := joinKeys ((s.keys).getD .null)
    let rep := if 1 < s.repeatCount then "x" ++ intRepr s.repeatCount else ""
    let hold := if s.hold_ms == 0 then "" else " hold=" ++ intRepr s.hold_ms ++ "ms"
    s.action ++ "(" ++ ks ++ rep ++ hold ++ ") (" ++ fmt2 s.confidence ++ ")"
  else
    s.action ++ target_desc ++ " (" ++ fmt2 s.confidence ++ ")"

/-- The loop body of `parse_actions`: convert each raw step, dropping a
step only when its action is not `"WAIT"` and its confidence is below
`min_confidence`.  A raw entry that is not a dict raises inside
`from_dict` (`none`). -/
def parseRaws (min_confidence : ℚ) : List JVal → Option (List ActionStep)
  | [] => some []
  | raw :: rest =>
      match raw with
      | .obj d => do
          let step ← ActionStep.from_dict d
          let tail ← parseRaws min_confidence rest
          if step.action ≠ "WAIT" ∧ step.confidence < min_confidence then pure tail
          else pure (step :: tail)
      | _ => none

/-- `parse_actions(response, min_confidence)`.  A missing `"actions"`
key defaults to the empty list; a non-list value fails the iteration
(the degenerate iterable cases such as an empty string are not
modelled). -/
def parse_actions (response : List (String × JVal)) (min_confidence : ℚ) :
    Option (List ActionStep) :=
  match (dictGet response "actions").getD (.arr []) with
  | .arr xs => parseRaws min_confidence xs
  | _ => none

/-! ## `src/agent/controller.py` -/

/-- An observation returned by the Capture Adapter: pixel dimensions, a
stand-in for the sha256 digest of the raw pixels, dpi metadata and the
base64 encoding the planner receives. -/
structure Screenshot where
  width : ℤ
  height : ℤ
  digest : String
  dpi : ℚ × ℚ
  b64 : String

/-- `ActionExecutor._resolve_coords`: a normalized target resolved
against the screenshot size, falling back to the adapter's screen size
when no size is available (`screenshot_size or self.adapter.screen_size()`;
a tuple is always truthy, so only `None` falls back). -/
def resolveCoords (t : ActionTarget) (screenshot_size : Option (ℤ × ℤ))
    (screen : ℤ × ℤ) : ℤ × ℤ :=
  let wh := screenshot_size.getD screen
  (pyTrunc (qMul t.x (qOfInt wh.1)), pyTrunc (qMul t.y (qOfInt wh.2)))

/-- One primitive side effect dispatched by `_execute_step`: an Input
Adapter call or a `time.sleep`. -/
inductive Effect where
  | move (x y : ℤ)
  | click (x y : ℤ) (clicks : ℤ)
  | drag (fromX fromY toX toY : ℤ)
  | scroll (dx dy : ℤ)
  | type_text (v : JVal)
  | keypress (keys : JVal) (repeatCount hold_ms : ℤ)
  | pySleep (seconds : ℚ)

/-- `ActionExecutor._execute_step`: dispatch one step, returning the
adapter effects it performs plus the step's summary string.  `none`
models an uncaught exception (`int(...)` on an unconvertible scroll
delta).  External adapter calls themselves are modelled as always
returning (their failures belong to the Input Adapter, per the spec). -/
def execStepModel (step : ActionStep) (size : Option (ℤ × ℤ)) (screen : ℤ × ℤ) :
    Option (List Effect × String) :=
  let target_coords : Option (ℤ × ℤ) := step.target.map (fun t => resolveCoords t size screen)
  let effs : Option (List Effect) :=
    if step.action == "MOVE" then
      match target_coords with
      | some c => some [.move c.1 c.2]
      | none => some []
    else if step.action == "CLICK" then
      match target_coords with
      | some c => some [.click c.1 c.2 1]
      | none => some []
    else if step.action == "DOUBLE_CLICK" then
      match target_coords with
      | some c => some [.click c.1 c.2 2]
      | none => some []
    else if step.action == "DRAG" then
      match step.target with
      | some _ =>
          let e := target_coords.getD (0, 0)
          some [.drag (screen.1 / 2) (screen.2 / 2) e.1 e.2]
      | none => some []
    else if step.action == "SCROLL" then
      if pyTruthyOpt step.scroll then
        match step.scroll with
        | some (.obj d) => do
            let dx ← pyInt ((dictGet d "dx").getD (.num 0))
            let dy ← pyInt ((dictGet d "dy").getD (.num 0))
            pure [.scroll dx dy]
        | _ => none
      else some [.scroll 0 0]
    else if step.action == "TYPE" then
      if pyTruthyOpt step.text then some [.type_text ((step.text).getD .null)] else some []
    else if step.action == "KEYPRESS" then
      if pyTruthyOpt step.keys then
        some [.keypress ((step.keys).getD .null) step.repeatCount step.hold_ms]
      else some []
    else if step.action == "WAIT" then some [.pySleep step.wait_seconds]
    else if step.action == "FOCUS_WINDOW" then some [.pySleep (mkRat 1 20)]
    else some []
  effs.map (fun e => (e, step.summary))

/-- The confidence gate inside `ActionExecutor.execute`: a step is
skipped (silently discarded) iff its action is not `"WAIT"` and its
confidence is below the fixed threshold `0.55`. -/
def skippedCheck (s : ActionStep) : Bool :=
  !(s.action == "WAIT") && s.confidence < mkRat 11 20

/-- The loop of `ActionExecutor.execute` over the step list: skipped
steps contribute nothing; each dispatched step contributes its effects
and exactly one summary, in order. -/
def execList (steps : List ActionStep) (size : Option (ℤ × ℤ)) (screen : ℤ × ℤ) :
    Option (List Effect × List String) :=
  match steps with
  | [] => some ([], [])
  | s :: rest =>
      if skippedCheck s then execList rest size screen
      else do
        let head ← execStepModel s size screen
        let tail ← execList rest size screen
        pure (head.1 ++ tail.1, head.2 :: tail.2)

/-- `ActionExecutor.execute`: refresh `last_capture_size` from the
screenshot passed in (when any), then run every eligible step against
that size.  Returns the new `last_capture_size`, the adapter effects and
the executed summaries; `none` models an uncaught exception. -/
def executeModel (steps : List ActionStep) (screenshot : Option Screenshot)
    (last_capture_size : Option (ℤ × ℤ)) (screen : ℤ × ℤ) :
    Option (Option (ℤ × ℤ) × List Effect × List String) :=
  let lcs : Option (ℤ × ℤ) :=
    match screenshot with
    | some s => some (s.width, s.height)
    | none => last_capture_size
  (execList steps lcs screen).map (fun r => (lcs, r.1, r.2))

/-! ## `src/agent/planners/gemini.py` and `openai_compat_vlm.py` -/

/-- The rate-limit heuristic of `GeminiPlanner._backoff_seconds`:
does the lowercased exception text mention `429`, `rate` or
`exhausted`? -/
def geminiRateLike (excMessage : String) : Bool :=
  let message := pyLower excMessage
  containsSub message "429" || containsSub message "rate" || containsSub message "exhausted"

/-- `GeminiPlanner._backoff_seconds`: a flat `10.0` seconds for
rate-limit-looking messages, else a flat `5.0`; the function receives
only the exception and no failure counter exists on `GeminiPlanner`. -/
def geminiBackoffSeconds (excMessage : String) : ℚ :=
  if geminiRateLike excMessage then qOfNat 10 else qOfNat 5

/-- The exception information `LocalVLMPlanner._backoff_seconds`
inspects: an HTTP error carrying a status code (a `requests.HTTPError`
with a response attached), or any other exception with its text. -/
inductive VlmExcInfo where
  | httpError (status : ℕ) (message : String)
  | generic (message : String)

/-- The message heuristic of `LocalVLMPlanner._backoff_seconds`:
`429`, `rate` or `limit` in the lowercased text. -/
def vlmMsgRateLike (excMessage : String) : Bool :=
  let message := pyLower excMessage
  containsSub message "429" || containsSub message "rate" || containsSub message "limit"

/-- `LocalVLMPlanner._backoff_seconds`: exponential in the consecutive
failure count (`scale = min(failure_count, 4)`), `5·2^scale` capped at
`60` for 429/5xx statuses or rate-limit-looking messages, `3·2^scale`
capped at `45` otherwise.  `failure_count` has already been incremented
for the current failure when this runs. -/
def vlmBackoffSeconds (failure_count : ℕ) (exc : VlmExcInfo) : ℚ :=
  let scale := min failure_count 4
  match exc with
  | .httpError status msg =>
      if status == 429 || 500 ≤ status then qOfNat (min (5 * 2 ^ scale) 60)
      else if vlmMsgRateLike msg then qOfNat (min (5 * 2 ^ scale) 60)
      else qOfNat (min (3 * 2 ^ scale) 45)
  | .generic msg =>
      if vlmMsgRateLike msg then qOfNat (min (5 * 2 ^ scale) 60)
      else qOfNat (min (3 * 2 ^ scale) 45)

/-- Classification used to state properties of `vlmBackoffSeconds`:
whether the branch taken is the rate-limited one. -/
def vlmRateLimited : VlmExcInfo → Bool
  | .httpError status msg => status == 429 || 500 ≤ status || vlmMsgRateLike msg
  | .generic msg => vlmMsgRateLike msg

/-! ## `src/agent/state.py` -/

/-- `AgentState` (typed view, as the orchestrator uses it).  The two
activity-window bounds are local times of day; the `"HH:MM"` strings of
the source are modelled as minutes since midnight, with `none` covering
both Python `None` and the falsy empty string. -/
structure AgentState where
  current_mode : String
  current_goal : String
  current_task : String
  last_action : String
  last_action_time : Option String
  agent_status : String
  inner_monologue_summary : String
  emotion_vector : List ℚ
  session_start_time : String
  time_active_today : ℚ
  active_window_start : Option ℕ
  active_window_stop : Option ℕ

/-- The dataclass defaults of `AgentState`; `nowStr` stands for the
`utc_now()` timestamp taken at construction time. -/
def defaultAgentState (nowStr : String) : AgentState :=
  { current_mode := "GOAL"
    current_goal := ""
    current_task := ""
    last_action := ""
    last_action_time := none
    agent_status := "STOPPED"
    inner_monologue_summary := ""
    emotion_vector := List.replicate 10 (mkRat 1 5)
    session_start_time := nowStr
    time_active_today := qOfNat 0
    active_window_start := none
    active_window_stop := none }

/-- `max(0.0, min(1.0, x))`. -/
def clamp01 (x : ℚ) : ℚ := pyMax (qOfNat 0) (pyMin (qOfNat 1) x)

/-- `AgentState.decay_emotions`: every component becomes
`max(0, min(1, v * (1 - decay)))`. -/
def AgentState.decay_emotions (s : AgentState) (decay : ℚ) : AgentState :=
  { s with emotion_vector := s.emotion_vector.map (fun v => clamp01 (qMul v (qSub (qOfNat 1) decay))) }

/-- `AgentState.stimulate_emotions`: every component becomes
`max(0, min(1, v + delta))`. -/
def AgentState.stimulate_emotions (s : AgentState) (delta : ℚ) : AgentState :=
  { s with emotion_vector := s.emotion_vector.map (fun v => clamp01 (qAdd v delta)) }

/-- `AgentState.update_after_action`: record the summary, refresh the
timestamp, force `ACTIVE`, and keep the existing monologue unless it
was empty (`self.inner_monologue_summary or summary`). -/
def AgentState.update_after_action (s : AgentState) (nowStr summary : String) : AgentState :=
  { s with
    last_action := summary
    last_action_time := some nowStr
    agent_status := "ACTIVE"
    inner_monologue_summary :=
      if s.inner_monologue_summary == "" then summary else s.inner_monologue_summary }

/-- `AgentState.update_monologue`: overwrite the monologue. -/
def AgentState.update_monologue (s : AgentState) (reflection : String) : AgentState :=
  { s with inner_monologue_summary := reflection }

/-- The raw field view `StateManager._load` builds: each constructor
argument is `data.get(key, default)` with no type validation, so the
fields hold whatever dynamic values the JSON document contained. -/
structure StateDoc where
  current_mode : JVal
  current_goal : JVal
  current_task : JVal
  last_action : JVal
  last_action_time : JVal
  agent_status : JVal
  inner_monologue_summary : JVal
  emotion_vector : JVal
  session_start_time : JVal
  time_active_today : JVal
  active_window_start : JVal
  active_window_stop : JVal

/-- The defaults `_load` falls back to, as raw values (`nowStr` stands
for `utc_now()` at construction time). -/
def stateDocDefault (nowStr : String) : StateDoc :=
  { current_mode := .str "GOAL"
    current_goal := .str ""
    current_task := .str ""
    last_action := .str ""
    last_action_time := .null
    agent_status := .str "STOPPED"
    inner_monologue_summary := .str ""
    emotion_vector := .arr (List.replicate 10 (.num (mkRat 1 5)))
    session_start_time := .str nowStr
    time_active_today := .num (qOfNat 0)
    active_window_start := .null
    active_window_stop := .null }

/-- `StateManager._load`.  The input is the state file's condition:
`none` when the file is absent, `some (.error ())` when its text is not
parseable JSON (`json.JSONDecodeError`, the only exception caught), and
`some (.ok v)` when it parses to the JSON value `v`.  A parsed value
that is not an object makes every `data.get(...)` raise
`AttributeError`, which `_load` does not catch — modelled as
`.error ()`. -/
def loadState (nowStr : String) (file : Option (Except Unit JVal)) : Except Unit StateDoc :=
  match file with
  | none => .ok (stateDocDefault nowStr)
  | some (.error _) => .ok (stateDocDefault nowStr)
  | some (.ok (.obj d)) =>
      .ok
        { current_mode := (dictGet d "current_mode").getD (.str "GOAL")
          current_goal := (dictGet d "current_goal").getD (.str "")
          current_task := (dictGet d "current_task").getD (.str "")
          last_action := (dictGet d "last_action").getD (.str "")
          last_action_time := (dictGet d "last_action_time").getD .null
          agent_status := (dictGet d "agent_status").getD (.str "STOPPED")
          inner_monologue_summary := (dictGet d "inner_monologue_summary").getD (.str "")
          emotion_vector := (dictGet d "emotion_vector").getD (.arr (List.replicate 10 (.num (mkRat 1 5))))
          session_start_time := (dictGet d "session_start_time").getD (.str nowStr)
          time_active_today := (dictGet d "time_active_today").getD (.num (qOfNat 0))
          active_window_start := (dictGet d "active_window_start").getD .null
          active_window_stop := (dictGet d "active_window_stop").getD .null }
  | some (.ok _) => .error ()

/-! ## `src/agent/loop.py` -/

/-- The mutable fields of `AgentOrchestrator` (plus the executor's
`last_capture_size`) that the tick loop reads and writes. -/
structure OrchState where
  state : AgentState
  last_screenshot : Option Screenshot
  last_vision_time : Option ℚ
  pending_actions : List ActionStep
  cached_plan_key : Option String
  cached_plan_response : Option (List (String × JVal))
  cached_plan_consumed : Bool
  last_logged : Option (String × String)
  last_capture_size : Option (ℤ × ℤ)

/-- The environment one tick runs against: the wall clock (local
time-of-day seconds for the window check, monotonic seconds for the
capture cadence, a formatted UTC timestamp for `update_after_action`),
what the Capture Adapter would return, the screen size, and what the
Planner Port would return if invoked. -/
structure TickEnv where
  nowSec : ℕ
  monoNow : ℚ
  nowStr : String
  capture : Screenshot
  screen : ℤ × ℤ
  planner : Option (List (String × JVal))

/-- Observable events of one tick, in order: state-file saves, snapshot
writes, Planner Port invocations, the tick's plan outcome
(`planObtained` records the value of `plan_response`), Input Adapter
effects, action-log writes and the final sleep. -/
inductive Event where
  | stateSave
  | snapshot
  | plannerCall
  | planObtained (response : Option (List (String × JVal)))
  | adapterOp (e : Effect)
  | logWrite (summary : String) (plan_key : String)
  | sleepFor (seconds : ℚ)

/-- `AgentOrchestrator._in_active_window`: true when either bound is
unset (falsy), otherwise `start <= now.time() <= stop`.  The `"HH:MM"`
bounds are minutes since midnight; `now.time()` is seconds since
midnight (so `strptime`'s zero seconds on the bounds are exact). -/
def inActiveWindow (startM stopM : Option ℕ) (nowSec : ℕ) : Bool :=
  match startM, stopM with
  | some a, some b => decide (a * 60 ≤ nowSec) && decide (nowSec ≤ b * 60)
  | _, _ => true

/-- `AgentOrchestrator._screenshot_key`: the pixel digest, dimensions
and dpi of an observation (the `try/except` around hashing is modelled
as always succeeding). -/
def screenshotKey : Option Screenshot → Option String
  | some s =>
      some (s.digest ++ ":" ++ intRepr s.width ++ "x" ++ intRepr s.height ++
        ":dpi=(" ++ ratRepr s.dpi.1 ++ "," ++ ratRepr s.dpi.2 ++ ")")
  | none => none

/-- The context fingerprint of a tick
(`f"{screenshot_key}:{perception_marker}:{goal}:{task}:{mode}"`). -/
def contextKeyOf (s : AgentState) (screenshot_key : Option String)
    (perception_marker : ℚ) : String :=
  (screenshot_key.getD "None") ++ ":" ++ ratRepr perception_marker ++ ":" ++
    s.current_goal ++ ":" ++ s.current_task ++ ":" ++ s.current_mode

/-- `AgentOrchestrator._maybe_capture`: recapture only when no capture
happened yet or more than 5 seconds of monotonic time have elapsed;
returns the fresh screenshot (or `none`) and the updated orchestrator
fields. -/
def maybeCapture (st : OrchState) (env : TickEnv) : Option Screenshot × OrchState :=
  match st.last_vision_time with
  | some t =>
      if qSub env.monoNow t < qOfNat 5 then (none, st)
      else (some env.capture,
        { st with last_screenshot := some env.capture, last_vision_time := some env.monoNow })
  | none =>
      (some env.capture,
        { st with last_screenshot := some env.capture, last_vision_time := some env.monoNow })

/-- The orchestrator state after `mark_active` and `_maybe_capture`,
at the point where the tick computes its fingerprint. -/
def afterCapture (st0 : OrchState) (env : TickEnv) : Option Screenshot × OrchState :=
  maybeCapture { st0 with state := { st0.state with agent_status := "ACTIVE" } } env

/-- `screenshot_to_use` for a tick: the fresh capture, else the stored
last screenshot. -/
def screenshotToUse (st0 : OrchState) (env : TickEnv) : Option Screenshot :=
  match (afterCapture st0 env).1 with
  | some s => some s
  | none => (afterCapture st0 env).2.last_screenshot

/-- The context fingerprint an active tick computes
(`perception_marker = self.last_vision_time or 0`). -/
def tickKey (st0 : OrchState) (env : TickEnv) : String :=
  contextKeyOf (afterCapture st0 env).2.state (screenshotKey (screenshotToUse st0 env))
    (((afterCapture st0 env).2.last_vision_time).getD (qOfNat 0))

/-- Outcome of the plan-cache decision (loop.py lines 127–140). -/
structure PlanDecision where
  plan_response : Option (List (String × JVal))
  st : OrchState
  events : List Event
  sleepHint : ℚ

/-- The plan-cache decision: an unchanged fingerprint returns the
cached response unmodified when present and unconsumed, or no plan and
a `0.2` sleep hint when consumed/absent; a changed fingerprint invokes
the Planner Port and caches its result as unconsumed. -/
def planDecision (stB : OrchState) (key : String)
    (plannerResult : Option (List (String × JVal))) : PlanDecision :=
  if stB.cached_plan_key = some key then
    if stB.cached_plan_response.isSome && !stB.cached_plan_consumed then
      { plan_response := stB.cached_plan_response
        st := stB
        events := [.planObtained stB.cached_plan_response]
        sleepHint := mkRat 1 2 }
    else
      { plan_response := none
        st := stB
        events := [.planObtained none]
        sleepHint := mkRat 1 5 }
  else
    { plan_response := plannerResult
      st := { stB with
        cached_plan_key := some key
        cached_plan_response := plannerResult
        cached_plan_consumed := false }
      events := [.plannerCall, .planObtained plannerResult]
      sleepHint := mkRat 1 2 }

/-- Result of folding the per-summary bookkeeping loop. -/
structure LogOut where
  state : AgentState
  last_logged : Option (String × String)
  events : List Event

/-- The per-summary loop of `_run_loop` (lines 156–161): each summary
updates the state (`update_after_action`, persisted), and is appended
to the action log unless it repeats the immediately previous
summary/plan-key pair. -/
def logFold (key_or_empty : String) (nowStr : String) (st : AgentState)
    (last_logged : Option (String × String)) : List String → LogOut
  | [] => { state := st, last_logged := last_logged, events := [] }
  | summary :: rest =>
      let st1 := st.update_after_action nowStr summary
      let doLog : Bool :=
        match last_logged with
        | none => true
        | some p => !(p == (summary, key_or_empty))
      let ll1 := if doLog then some (summary, key_or_empty) else last_logged
      let evs1 := if doLog then [Event.logWrite summary key_or_empty] else []
      let tail := logFold key_or_empty nowStr st1 ll1 rest
      { state := tail.state
        last_logged := tail.last_logged
        events := [Event.stateSave] ++ evs1 ++ tail.events }

/-- The execution phase of a tick (lines 150–167): drain the pending
queue, execute it in one batch, record each summary, mark the cached
plan consumed and force the next tick to recapture; the final sleep
drops to `0.1` when the batch ended with a `WAIT`.  `none` models the
executor raising. -/
def execPhase (st : OrchState) (env : TickEnv) (screenshot_to_use : Option Screenshot)
    (sleepIn : ℚ) : Option (OrchState × List Event × ℚ) :=
  match st.pending_actions with
  | [] => some (st, [], sleepIn)
  | a0 :: rest =>
    let actions_to_run := a0 :: rest
    match executeModel actions_to_run screenshot_to_use st.last_capture_size env.screen with
    | none => none
    | some r =>
        let key_or_empty := st.cached_plan_key.getD ""
        let lo := logFold key_or_empty env.nowStr st.state st.last_logged r.2.2
        let sleepOut : ℚ :=
          if (actions_to_run.getLast?).map (fun a => a.action) = some "WAIT" then mkRat 1 10
          else sleepIn
        some
          ({ st with
              pending_actions := []
              state := lo.state
              last_logged := lo.last_logged
              last_capture_size := r.1
              cached_plan_consumed := true
              last_vision_time := none },
            (r.2.1.map Event.adapterOp) ++ lo.events,
            sleepOut)

/-- The sleeping branch of one `_run_loop` iteration: mark SLEEPING
(persisted), reflect (decay affect, overwrite the monologue, write one
snapshot) and sleep 5 seconds. -/
def sleepingTick (st0 : OrchState) : OrchState × List Event :=
  let st1 := { st0 with state := { st0.state with agent_status := "SLEEPING" } }
  let st2 := { st1 with state := st1.state.decay_emotions (mkRat 3 100) }
  let st3 := { st2 with state :=
    st2.state.update_monologue "Sleeping and reflecting on recent actions." }
  (st3, [Event.stateSave, Event.stateSave, Event.snapshot, Event.sleepFor (qOfNat 5)])

/-- The active branch of one `_run_loop` iteration: mark ACTIVE, maybe
capture, consult the plan cache when no steps are pending (parsing and
filtering any plan at threshold `0.55`), execute pending steps,
stimulate affect, persist, snapshot and sleep.  `none` models an
uncaught exception escaping the tick. -/
def activeTick (st0 : OrchState) (env : TickEnv) : Option (OrchState × List Event) :=
  let stB := (afterCapture st0 env).2
  let stu := screenshotToUse st0 env
  let planned : Option (OrchState × List Event × ℚ) :=
    match stB.pending_actions with
    | _ :: _ => some (stB, [], mkRat 1 2)
    | [] =>
      let pd := planDecision stB (tickKey st0 env) env.planner
      match pd.plan_response with
      | some resp =>
          match parse_actions resp (mkRat 11 20) with
          | none => none
          | some actions =>
              let filtered := actions.filter
                (fun a => a.action == "WAIT" || decide (mkRat 11 20 ≤ a.confidence))
              some ({ pd.st with pending_actions := pd.st.pending_actions ++ filtered },
                pd.events, pd.sleepHint)
      | none => some (pd.st, pd.events, mkRat 1 5)
  match planned with
  | none => none
  | some plannedOut =>
      match execPhase plannedOut.1 env stu plannedOut.2.2 with
      | none => none
      | some execOut =>
          let stE := { execOut.1 with state := execOut.1.state.stimulate_emotions (mkRat 1 50) }
          some (stE,
            [Event.stateSave] ++ plannedOut.2.1 ++ execOut.2.1 ++
              [Event.stateSave, Event.snapshot, Event.sleepFor execOut.2.2])

/-- One iteration of `AgentOrchestrator._run_loop` (after the running
check): the activity-window test selects the sleeping or the active
branch. -/
def tickBody (st0 : OrchState) (env : TickEnv) : Option (OrchState × List Event) :=
  if inActiveWindow st0.state.active_window_start st0.state.active_window_stop env.nowSec then
    activeTick st0 env
  else some (sleepingTick st0)

/-- Number of Planner Port invocations recorded in a trace. -/
def countPlannerCalls : List Event → ℕ
  | [] => 0
  | .plannerCall :: t => countPlannerCalls t + 1
  | _ :: t => countPlannerCalls t

/-- Number of snapshot writes recorded in a trace. -/
def countSnapshots : List Event → ℕ
  | [] => 0
  | .snapshot :: t => countSnapshots t + 1
  | _ :: t => countSnapshots t

/-! ## Concrete data used by individual theorems -/

/-- A minimal step with the given action and confidence and all other
fields at their `from_dict` defaults. -/
def basicStep (a : String) (c : ℚ) : ActionStep :=
  { action := a
    confidence := c
    rationale := .str ""
    expected_outcome := .str ""
    target := none
    text := none
    keys := none
    scroll := none
    wait_seconds := 0
    repeatCount := 1
    hold_ms := 0 }

/-- A raw plan step with an out-of-vocabulary action kind. -/
def flyRaw : List (String × JVal) :=
  [("action", .str "FLY"), ("confidence", .num (mkRat 9 10))]

/-- A planner response whose single step has the out-of-vocabulary kind
`FLY`. -/
def flyResponse : List (String × JVal) := [("actions", .arr [.obj flyRaw])]

/-- A raw step whose `confidence` is out of range (`2.5`). -/
def confBigRaw : List (String × JVal) :=
  [("action", .str "CLICK"), ("confidence", .num (mkRat 5 2))]

/-- A raw SCROLL step whose scroll delta is a non-numeric string: it
parses fine but `int("abc")` raises `ValueError` inside the executor. -/
def scrollBadRaw : List (String × JVal) :=
  [("action", .str "SCROLL"), ("confidence", .num (mkRat 9 10)),
   ("scroll", .obj [("dx", .str "abc")])]

/-- The parsed form of `scrollBadRaw`. -/
def scrollBad : ActionStep :=
  { basicStep "SCROLL" (mkRat 9 10) with scroll := some (.obj [("dx", .str "abc")]) }

/-- A concrete observation used by the two-tick witness run. -/
def sshotW : Screenshot :=
  { width := 1000, height := 800, digest := "d1", dpi := (qOfNat 96, qOfNat 96), b64 := "img" }

/-- A concrete planner response with an empty action list. -/
def demoPlan : List (String × JVal) := [("actions", JVal.arr [])]

/-- Fresh orchestrator state: defaults, nothing cached, nothing pending. -/
def st1c : OrchState :=
  { state := defaultAgentState "t0"
    last_screenshot := none
    last_vision_time := none
    pending_actions := []
    cached_plan_key := none
    cached_plan_response := none
    cached_plan_consumed := false
    last_logged := none
    last_capture_size := none }

/-- Environment of the first witness tick. -/
def env1c : TickEnv :=
  { nowSec := 36000, monoNow := qOfNat 100, nowStr := "t1", capture := sshotW,
    screen := (1920, 1080), planner := some demoPlan }

/-- Environment of the second witness tick (2 seconds later, same
screen content, so the fingerprint is unchanged). -/
def env2c : TickEnv := { env1c with monoNow := qOfNat 102, nowStr := "t2" }

/-- Result of the first witness tick. -/
def w2pair : OrchState × List Event := (tickBody st1c env1c).getD (st1c, [])

/-- Result of the second witness tick. -/
def w3pair : OrchState × List Event := (tickBody w2pair.1 env2c).getD (st1c, [])

/-- Orchestrator state with the activity window 09:00–17:00. -/
def st9 : OrchState :=
  { st1c with state :=
      { defaultAgentState "t0" with active_window_start := some 540, active_window_stop := some 1020 } }

/-- Tick environment at 20:00 local time. -/
def env9 : TickEnv :=
  { nowSec := 72000, monoNow := qOfNat 0, nowStr := "t", capture := sshotW,
    screen := (1920, 1080), planner := none }

/-! ## Bridge and helper lemmas -/

theorem qAdd_eq (a b : ℚ) : qAdd a b = a + b := by
  unfold qAdd
  rw [Rat.mkRat_eq_divInt, Rat.add_def, Rat.normalize_eq_mkRat, Rat.mkRat_eq_divInt]

theorem qSub_eq (a b : ℚ) : qSub a b = a - b := by
  unfold qSub
  rw [Rat.mkRat_eq_divInt, Rat.sub_def, Rat.normalize_eq_mkRat, Rat.mkRat_eq_divInt]

theorem qMul_eq (a b : ℚ) : qMul a b = a * b := by
  unfold qMul
  rw [Rat.mkRat_eq_divInt, Rat.mul_def, Rat.normalize_eq_mkRat, Rat.mkRat_eq_divInt]

theorem qOfInt_cast (n : ℤ) : qOfInt n = (n : ℚ) := by
  unfold qOfInt
  simp [Rat.mkRat_eq_divInt, Rat.divInt_one]

theorem qOfNat_cast (n : ℕ) : qOfNat n = (n : ℚ) := by
  unfold qOfNat
  simp [Rat.mkRat_eq_divInt, Rat.divInt_one]

theorem qOfNat_le_qOfNat {a b : ℕ} : qOfNat a ≤ qOfNat b ↔ a ≤ b := by
  rw [qOfNat_cast, qOfNat_cast, Nat.cast_le]

theorem qOfNat_lt_qOfNat {a b : ℕ} : qOfNat a < qOfNat b ↔ a < b := by
  rw [qOfNat_cast, qOfNat_cast, Nat.cast_lt]

theorem clamp01_mem (x : ℚ) : 0 ≤ clamp01 x ∧ clamp01 x ≤ 1 := by
  unfold clamp01 pyMax pyMin
  rw [qOfNat_cast, qOfNat_cast]
  push_cast
  split_ifs <;> constructor <;> linarith

theorem clampInt_mem (lo hi x : ℤ) (h : lo ≤ hi) :
    lo ≤ clampInt lo hi x ∧ clampInt lo hi x ≤ hi := by
  unfold clampInt
  split_ifs <;> omega

/-! ## C5 — numeric-field clamping at construction -/

/-- C5 counterexample: the claim says `from_dict` clamps `confidence`
to `[0,1]`, but a raw step with `confidence = 2.5` is constructed with
confidence `2.5` unchanged. -/
theorem c5_clamp_counterexample :
    (ActionStep.from_dict confBigRaw).map (fun s => s.confidence) = some (mkRat 5 2) ∧
      ¬(mkRat 5 2 ≤ 1) := by
  refine ⟨rfl, ?_⟩
  rw [Rat.mkRat_eq_div]
  norm_num

/-- C5 (amended): only `repeat` (in `[1,10]`, default `1`) and
`hold_ms` (in `[0,2000]`, default `0`) are clamped at construction;
`confidence` and `wait_seconds` are `float`-converted without clamping
(a negative `wait_seconds` is stored as is), and an unconvertible
`confidence` raises instead of clamping (the step construction fails). -/
theorem c5_clamp_amended :
    (∀ (d : List (String × JVal)) (s : ActionStep), ActionStep.from_dict d = some s →
        1 ≤ s.repeatCount ∧ s.repeatCount ≤ 10 ∧ 0 ≤ s.hold_ms ∧ s.hold_ms ≤ 2000) ∧
    (ActionStep.from_dict []).map (fun s => (s.repeatCount, s.hold_ms, s.confidence)) =
      some (1, 0, 0) ∧
    ActionStep.from_dict [("confidence", .null)] = none ∧
    (ActionStep.from_dict [("wait_seconds", .num (mkRat (-5) 1))]).map
      (fun s => s.wait_seconds) = some (mkRat (-5) 1) := by
  refine ⟨?_, rfl, rfl, rfl⟩
  intro d s h
  unfold ActionStep.from_dict at h
  obtain ⟨t, ht, h⟩ := Option.bind_eq_some.mp h
  obtain ⟨c, hc, h⟩ := Option.bind_eq_some.mp h
  obtain ⟨w, hw, hs⟩ := Option.map_eq_some'.mp h
  subst hs
  exact ⟨(clampInt_mem 1 10 _ (by norm_num)).1, (clampInt_mem 1 10 _ (by norm_num)).2,
    (clampInt_mem 0 2000 _ (by norm_num)).1, (clampInt_mem 0 2000 _ (by norm_num)).2⟩

/-- C5 witness: the bounds theorem applied to the concrete raw step
with out-of-range confidence. -/
theorem c5_witness :
    1 ≤ (basicStep "CLICK" (mkRat 5 2)).repeatCount ∧
      (basicStep "CLICK" (mkRat 5 2)).repeatCount ≤ 10 ∧
      0 ≤ (basicStep "CLICK" (mkRat 5 2)).hold_ms ∧
      (basicStep "CLICK" (mkRat 5 2)).hold_ms ≤ 2000 :=
  c5_clamp_amended.1 confBigRaw (basicStep "CLICK" (mkRat 5 2)) rfl

/-! ## C6 — affect vector stays in [0,1] -/

/-- C6: for an affect vector of ten components in `[0,1]`, both
`decay_emotions` and `stimulate_emotions` keep all ten components in
`[0,1]` (the clamp makes this hold for any rate/delta). -/
theorem c6_affect_bounds (s : AgentState) (decay delta : ℚ)
    (hlen : s.emotion_vector.length = 10)
    (_hmem : ∀ v ∈ s.emotion_vector, 0 ≤ v ∧ v ≤ 1) :
    ((s.decay_emotions decay).emotion_vector.length = 10 ∧
      ∀ v ∈ (s.decay_emotions decay).emotion_vector, 0 ≤ v ∧ v ≤ 1) ∧
    ((s.stimulate_emotions delta).emotion_vector.length = 10 ∧
      ∀ v ∈ (s.stimulate_emotions delta).emotion_vector, 0 ≤ v ∧ v ≤ 1) := by
  refine ⟨⟨?_, ?_⟩, ?_, ?_⟩ <;>
    simp only [AgentState.decay_emotions, AgentState.stimulate_emotions, List.length_map, hlen,
      List.mem_map]
  · rintro v ⟨w, _, rfl⟩
    exact clamp01_mem _
  · rintro v ⟨w, _, rfl⟩
    exact clamp01_mem _

/-- C6 witness: the bounds theorem applied to the default state (ten
entries of `0.2`) with the loop's decay and stimulation constants. -/
theorem c6_witness :
    (((defaultAgentState "t0").decay_emotions (mkRat 3 100)).emotion_vector.length = 10 ∧
      ∀ v ∈ ((defaultAgentState "t0").decay_emotions (mkRat 3 100)).emotion_vector,
        0 ≤ v ∧ v ≤ 1) ∧
    (((defaultAgentState "t0").stimulate_emotions (mkRat 1 50)).emotion_vector.length = 10 ∧
      ∀ v ∈ ((defaultAgentState "t0").stimulate_emotions (mkRat 1 50)).emotion_vector,
        0 ≤ v ∧ v ≤ 1) := by
  refine c6_affect_bounds (defaultAgentState "t0") (mkRat 3 100) (mkRat 1 50) (by rfl) ?_
  intro v hv
  simp only [defaultAgentState, List.mem_replicate] at hv
  rw [hv.2, Rat.mkRat_eq_div]
  norm_num

/-! ## C7 — state loading -/

/-- C7 (code_bug evaluation): an absent state file and a file whose
text is not parseable JSON both load the defaults (status `STOPPED`,
mode `GOAL`, affect ten entries of `0.2`), but a file whose text is
*valid* JSON of non-object shape (for example the file containing just
`5`) raises an uncaught `AttributeError` from `data.get` instead of
falling back to defaults — only `json.JSONDecodeError` is caught. -/
theorem c7_load_behavior :
    loadState "T" none = .ok (stateDocDefault "T") ∧
    loadState "T" (some (.error ())) = .ok (stateDocDefault "T") ∧
    (stateDocDefault "T").agent_status = .str "STOPPED" ∧
    (stateDocDefault "T").current_mode = .str "GOAL" ∧
    (stateDocDefault "T").emotion_vector = .arr (List.replicate 10 (.num (mkRat 1 5))) ∧
    loadState "T" (some (.ok (.num 5))) = .error () :=
  ⟨rfl, rfl, rfl, rfl, rfl, rfl⟩

/-! ## C8 — coordinate resolution -/

/-- C8: a normalized `(0.5, 0.5)` target against a `1000×800`
observation resolves to `(500, 400)` whatever the adapter screen size
is; with no observation size the adapter's screen size is used; and
`execute` resolves against the most recent observation's dimensions
(a fresh screenshot overrides the remembered capture size). -/
theorem c8_coordinate_resolution :
    (∀ sw sh : ℤ,
      resolveCoords ⟨mkRat 1 2, mkRat 1 2, none, none⟩ (some (1000, 800)) (sw, sh) = (500, 400)) ∧
    (∀ (t : ActionTarget) (sw sh : ℤ),
      resolveCoords t none (sw, sh) = (pyTrunc (t.x * sw), pyTrunc (t.y * sh))) ∧
    (∀ (steps : List ActionStep) (scr : Screenshot) (lcs : Option (ℤ × ℤ)) (screen : ℤ × ℤ),
      executeModel steps (some scr) lcs screen =
        executeModel steps none (some (scr.width, scr.height)) screen) := by
  refine ⟨fun sw sh => ?_, fun t sw sh => ?_, fun steps scr lcs screen => rfl⟩
  · show (pyTrunc (qMul (mkRat 1 2) (qOfInt 1000)), pyTrunc (qMul (mkRat 1 2) (qOfInt 800))) =
      (500, 400)
    decide
  · show (pyTrunc (qMul t.x (qOfInt sw)), pyTrunc (qMul t.y (qOfInt sh))) = _
    rw [qMul_eq, qMul_eq, qOfInt_cast, qOfInt_cast]

/-! ## C3 — parsing and the action vocabulary -/

theorem parseRaws_of_mapM (minConf : ℚ) :
    ∀ (raws : List (List (String × JVal))) (steps : List ActionStep),
      raws.mapM ActionStep.from_dict = some steps →
      parseRaws minConf (raws.map JVal.obj) =
        some (steps.filter (fun s => decide (¬(s.action ≠ "WAIT" ∧ s.confidence < minConf))))
  | [], steps, h => by
      simp only [List.mapM_nil, pure, Option.some.injEq] at h
      subst h
      rfl
  | d :: raws, steps, h => by
      rw [List.mapM_cons] at h
      obtain ⟨s0, hs0, h⟩ := Option.bind_eq_some.mp h
      obtain ⟨ss, hss, h2⟩ := Option.bind_eq_some.mp h
      simp only [pure, Option.some.injEq] at h2
      subst h2
      have ih := parseRaws_of_mapM minConf raws ss hss
      by_cases hcond : s0.action ≠ "WAIT" ∧ s0.confidence < minConf
      · simp [parseRaws, hs0, ih, List.filter_cons, hcond]
      · have hres : s0.action = "WAIT" ∨ minConf ≤ s0.confidence := by
          by_cases ha : s0.action = "WAIT"
          · exact Or.inl ha
          · exact Or.inr (le_of_not_lt (fun hlt => hcond ⟨ha, hlt⟩))
        simp [parseRaws, hs0, ih, List.filter_cons, hcond, hres]

/-- C3 counterexample: the claim says a step is dropped iff its kind is
outside the nine-action vocabulary, but `parse_actions` performs no
vocabulary check at all — a step with the out-of-vocabulary kind `FLY`
and confidence `0.9` is kept. -/
theorem c3_parse_counterexample :
    (parse_actions flyResponse (mkRat 11 20)).map (fun l => l.map (fun s => s.action)) =
      some ["FLY"] ∧
    ("FLY" ∈ SUPPORTED_ACTIONS) = False := by
  refine ⟨rfl, ?_⟩
  simp [SUPPORTED_ACTIONS]

/-- C3 (amended): `parse_actions` drops a raw step iff its kind is not
`"WAIT"` and its confidence is below `min_confidence`; the vocabulary is
never consulted (an out-of-vocabulary kind passes through); a missing
`kind` field defaults to `WAIT`. -/
theorem c3_parse_amended :
    (∀ (raws : List (List (String × JVal))) (steps : List ActionStep) (minConf : ℚ),
      raws.mapM ActionStep.from_dict = some steps →
      parse_actions [("actions", .arr (raws.map JVal.obj))] minConf =
        some (steps.filter (fun s => decide (¬(s.action ≠ "WAIT" ∧ s.confidence < minConf))))) ∧
    (∀ (d : List (String × JVal)) (s : ActionStep),
      dictGet d "action" = none → ActionStep.from_dict d = some s → s.action = "WAIT") := by
  constructor
  · intro raws steps minConf h
    exact parseRaws_of_mapM minConf raws steps h
  · intro d s hnone h
    unfold ActionStep.from_dict at h
    obtain ⟨t, ht, h⟩ := Option.bind_eq_some.mp h
    obtain ⟨c, hc, h⟩ := Option.bind_eq_some.mp h
    obtain ⟨w, hw, hs⟩ := Option.map_eq_some'.mp h
    subst hs
    show pyStr ((dictGet d "action").getD (.str "WAIT")) = "WAIT"
    rw [hnone]
    rfl

/-- C3 witness: the parse characterization applied to the concrete
plan whose single step has kind `FLY`. -/
theorem c3_witness :
    parse_actions [("actions", .arr ([flyRaw].map JVal.obj))] (mkRat 11 20) =
      some ([basicStep "FLY" (mkRat 9 10)].filter
        (fun s => decide (¬(s.action ≠ "WAIT" ∧ s.confidence < mkRat 11 20)))) :=
  c3_parse_amended.1 [flyRaw] [basicStep "FLY" (mkRat 9 10)] (mkRat 11 20) rfl

/-! ## C4 — confidence filtering in the executor -/

theorem execList_skip (s : ActionStep) (h : skippedCheck s = true) :
    ∀ (ss1 ss2 : List ActionStep) (size : Option (ℤ × ℤ)) (screen : ℤ × ℤ),
      execList (ss1 ++ s :: ss2) size screen = execList (ss1 ++ ss2) size screen
  | [], ss2, size, screen => by simp [execList, h]
  | a :: t, ss2, size, screen => by
      by_cases ha : skippedCheck a = true <;>
        simp [execList, ha, execList_skip s h t ss2 size screen]

/-- C4: a step is discarded by the executor iff its kind is not `WAIT`
and its confidence is below `0.55`: removing such a step from the input
changes nothing (no execution, no summary, hence no log entry — the
loop only logs returned summaries); a `WAIT` step with confidence `0.0`
is dispatched (and summarized) unconditionally, while a `CLICK` at
`0.54` yields no effect and no summary. -/
theorem c4_confidence_filter :
    (∀ (s : ActionStep) (ss1 ss2 : List ActionStep) (scr : Option Screenshot)
        (lcs : Option (ℤ × ℤ)) (screen : ℤ × ℤ),
      s.action ≠ "WAIT" → s.confidence < mkRat 11 20 →
      executeModel (ss1 ++ s :: ss2) scr lcs screen = executeModel (ss1 ++ ss2) scr lcs screen) ∧
    skippedCheck (basicStep "WAIT" 0) = false ∧
    skippedCheck (basicStep "CLICK" (mkRat 27 50)) = true ∧
    (∀ (scr : Option Screenshot) (lcs : Option (ℤ × ℤ)) (screen : ℤ × ℤ),
      executeModel [basicStep "CLICK" (mkRat 27 50)] scr lcs screen =
        some ((match scr with | some sc => some (sc.width, sc.height) | none => lcs), [], [])) ∧
    (∀ (scr : Option Screenshot) (lcs : Option (ℤ × ℤ)) (screen : ℤ × ℤ),
      executeModel [basicStep "WAIT" 0] scr lcs screen =
        some ((match scr with | some sc => some (sc.width, sc.height) | none => lcs),
          [Effect.pySleep 0], ["WAIT (0.00)"])) := by
  refine ⟨?_, rfl, rfl, ?_, ?_⟩
  · intro s ss1 ss2 scr lcs screen h1 h2
    have hskip : skippedCheck s = true := by
      simp [skippedCheck, h1, h2]
    simp only [executeModel]
    rw [execList_skip s hskip]
  · intro scr lcs screen
    cases scr <;> rfl
  · intro scr lcs screen
    cases scr <;> rfl

/-- C4 witness: the discard equation applied to the concrete `CLICK`
step with confidence `0.54`. -/
theorem c4_witness :
    executeModel ([] ++ basicStep "CLICK" (mkRat 27 50) :: []) none none (100, 100) =
      executeModel ([] ++ []) none none (100, 100) :=
  c4_confidence_filter.1 (basicStep "CLICK" (mkRat 27 50)) [] [] none none (100, 100)
    (by decide) (by decide)

/-! ## C10 — one summary per eligible step -/

/-- C10 (code_bug evaluation): a no-op dispatch (here `MOVE` without a
target) still contributes exactly one summary; but an eligible `SCROLL`
step whose scroll delta is the non-numeric string `"abc"` — which
`parse_actions` accepts unchanged — makes `int(...)` raise an uncaught
`ValueError` inside `_execute_step`, so the executor crashes and
produces no summary list at all, falsifying the
one-summary-per-eligible-step property (and the spec's rule that
malformed plan content is never fatal). -/
theorem c10_executor_crash :
    parse_actions [("actions", .arr [.obj scrollBadRaw])] (mkRat 11 20) = some [scrollBad] ∧
    skippedCheck scrollBad = false ∧
    executeModel [scrollBad] none none (1920, 1080) = none ∧
    (∀ (scr : Option Screenshot) (lcs : Option (ℤ × ℤ)) (screen : ℤ × ℤ),
      executeModel [basicStep "MOVE" (mkRat 9 10)] scr lcs screen =
        some ((match scr with | some sc => some (sc.width, sc.height) | none => lcs), [],
          ["MOVE (0.90)"])) := by
  refine ⟨rfl, rfl, rfl, ?_⟩
  intro scr lcs screen
  cases scr <;> rfl

/-! ## C2 — backoff behaviour -/

theorem vlmBackoff_classified (n : ℕ) (e : VlmExcInfo) :
    vlmBackoffSeconds n e =
      cond (vlmRateLimited e) (qOfNat (min (5 * 2 ^ min n 4) 60))
        (qOfNat (min (3 * 2 ^ min n 4) 45)) := by
  cases e with
  | httpError status msg =>
      simp only [vlmBackoffSeconds, vlmRateLimited]
      by_cases h1 : status == 429 <;> by_cases h2 : 500 ≤ status <;>
        by_cases h3 : vlmMsgRateLike msg <;> simp [h1, h2, h3]
  | generic msg =>
      simp only [vlmBackoffSeconds, vlmRateLimited]
      by_cases h3 : vlmMsgRateLike msg <;> simp [h3]

/-- C2 counterexample: `GeminiPlanner._backoff_seconds` ignores the
consecutive-failure count entirely — it is a flat per-exception
constant, and a rate-limited failure (10 s) followed by a generic
failure (5 s) makes the backoff *decrease* between consecutive
failures, contradicting the claimed monotone exponential scaling. -/
theorem c2_backoff_counterexample :
    geminiBackoffSeconds "429 Resource exhausted" = qOfNat 10 ∧
    geminiBackoffSeconds "connection reset by peer" = qOfNat 5 ∧
    geminiBackoffSeconds "connection reset by peer" <
      geminiBackoffSeconds "429 Resource exhausted" := by
  refine ⟨rfl, rfl, ?_⟩
  show qOfNat 5 < qOfNat 10
  rw [qOfNat_lt_qOfNat]
  norm_num

/-- C2 (amended): the Gemini planner's backoff is a flat constant per
failure classification — `10.0` when the lowercased message mentions
`429`/`rate`/`exhausted`, else `5.0`, so rate-limit-looking failures
always back off longer but nothing scales with the failure count.  The
exponential capped scheme the claim describes is implemented by
`LocalVLMPlanner`: `base · 2^min(failures, 4)` with base 5 capped at 60
for 429/5xx statuses or rate/limit messages and base 3 capped at 45
otherwise; within a fixed classification it never decreases as the
consecutive-failure count grows, the rate-limited backoff strictly
exceeds the generic one at equal count, and `60` bounds everything. -/
theorem c2_backoff_amended :
    (∀ msg : String, geminiBackoffSeconds msg = qOfNat 10 ∨ geminiBackoffSeconds msg = qOfNat 5) ∧
    (∀ m1 m2 : String, geminiRateLike m1 = true → geminiRateLike m2 = false →
      geminiBackoffSeconds m2 < geminiBackoffSeconds m1) ∧
    (∀ (m n : ℕ) (e : VlmExcInfo), m ≤ n →
      vlmBackoffSeconds m e ≤ vlmBackoffSeconds n e) ∧
    (∀ (n : ℕ) (e1 e2 : VlmExcInfo), vlmRateLimited e1 = true → vlmRateLimited e2 = false →
      vlmBackoffSeconds n e2 < vlmBackoffSeconds n e1) ∧
    (∀ (n : ℕ) (e : VlmExcInfo), vlmBackoffSeconds n e ≤ qOfNat 60) := by
  refine ⟨?_, ?_, ?_, ?_, ?_⟩
  · intro msg
    unfold geminiBackoffSeconds
    split
    · exact Or.inl rfl
    · exact Or.inr rfl
  · intro m1 m2 h1 h2
    simp only [geminiBackoffSeconds, h1, h2]
    simp only [Bool.false_eq_true, if_true, if_false]
    rw [qOfNat_lt_qOfNat]
    norm_num
  · intro m n e hmn
    rw [vlmBackoff_classified, vlmBackoff_classified]
    have hp : (2 : ℕ) ^ min m 4 ≤ 2 ^ min n 4 :=
      Nat.pow_le_pow_right (by omega) (min_le_min hmn le_rfl)
    cases hrl : vlmRateLimited e
    · rw [cond_false, cond_false, qOfNat_le_qOfNat]
      exact min_le_min (Nat.mul_le_mul_left 3 hp) le_rfl
    · rw [cond_true, cond_true, qOfNat_le_qOfNat]
      exact min_le_min (Nat.mul_le_mul_left 5 hp) le_rfl
  · intro n e1 e2 h1 h2
    rw [vlmBackoff_classified, vlmBackoff_classified, h1, h2, cond_true, cond_false,
      qOfNat_lt_qOfNat]
    have hs : min n 4 ≤ 4 := min_le_right _ _
    generalize hsd : min n 4 = s at hs ⊢
    interval_cases s <;> norm_num
  · intro n e
    rw [vlmBackoff_classified]
    cases hrl : vlmRateLimited e
    · rw [cond_false, qOfNat_le_qOfNat]
      omega
    · rw [cond_true, qOfNat_le_qOfNat]
      omega

/-- C2 witness: monotonicity in the failure count and the rate-limited
excess, each at concrete inputs. -/
theorem c2_witness :
    vlmBackoffSeconds 1 (.generic "boom") ≤ vlmBackoffSeconds 3 (.generic "boom") ∧
    vlmBackoffSeconds 2 (.generic "boom") < vlmBackoffSeconds 2 (.httpError 429 "x") :=
  ⟨c2_backoff_amended.2.2.1 1 3 (.generic "boom") (by norm_num),
   c2_backoff_amended.2.2.2.1 2 (.httpError 429 "x") (.generic "boom") (by decide) (by decide)⟩

/-! ## Orchestrator helper lemmas -/

theorem countPlannerCalls_append (l1 l2 : List Event) :
    countPlannerCalls (l1 ++ l2) = countPlannerCalls l1 + countPlannerCalls l2 := by
  induction l1 with
  | nil => simp [countPlannerCalls]
  | cons a t ih =>
      cases a <;> simp [countPlannerCalls, ih]
      omega

theorem countPlannerCalls_map_adapter (l : List Effect) :
    countPlannerCalls (l.map Event.adapterOp) = 0 := by
  induction l with
  | nil => rfl
  | cons a t ih => simp [countPlannerCalls, ih]

theorem logFold_calls (key nowStr : String) :
    ∀ (l : List String) (st : AgentState) (ll : Option (String × String)),
      countPlannerCalls (logFold key nowStr st ll l).events = 0
  | [], st, ll => rfl
  | s :: rest, st, ll => by
      simp only [logFold, countPlannerCalls_append]
      rw [logFold_calls key nowStr rest]
      split <;> simp [countPlannerCalls]

theorem maybeCapture_cases (st : OrchState) (env : TickEnv) :
    (maybeCapture st env).2 = st ∨
    (maybeCapture st env).2 =
      { st with last_screenshot := some env.capture, last_vision_time := some env.monoNow } := by
  unfold maybeCapture
  cases h : st.last_vision_time with
  | none => right; rfl
  | some t =>
      simp only
      split
      · left; rfl
      · right; rfl

theorem afterCapture_pending (st0 : OrchState) (env : TickEnv) :
    (afterCapture st0 env).2.pending_actions = st0.pending_actions := by
  unfold afterCapture
  rcases maybeCapture_cases { st0 with state := { st0.state with agent_status := "ACTIVE" } } env
    with h | h <;> rw [h]

theorem afterCapture_cached_key (st0 : OrchState) (env : TickEnv) :
    (afterCapture st0 env).2.cached_plan_key = st0.cached_plan_key := by
  unfold afterCapture
  rcases maybeCapture_cases { st0 with state := { st0.state with agent_status := "ACTIVE" } } env
    with h | h <;> rw [h]

theorem afterCapture_cached_response (st0 : OrchState) (env : TickEnv) :
    (afterCapture st0 env).2.cached_plan_response = st0.cached_plan_response := by
  unfold afterCapture
  rcases maybeCapture_cases { st0 with state := { st0.state with agent_status := "ACTIVE" } } env
    with h | h <;> rw [h]

theorem afterCapture_cached_consumed (st0 : OrchState) (env : TickEnv) :
    (afterCapture st0 env).2.cached_plan_consumed = st0.cached_plan_consumed := by
  unfold afterCapture
  rcases maybeCapture_cases { st0 with state := { st0.state with agent_status := "ACTIVE" } } env
    with h | h <;> rw [h]

theorem execPhase_empty (st : OrchState) (env : TickEnv) (stu : Option Screenshot) (sl : ℚ)
    (h : st.pending_actions = []) : execPhase st env stu sl = some (st, [], sl) := by
  unfold execPhase
  rw [h]

theorem execPhase_cached_key (st : OrchState) (env : TickEnv) (stu : Option Screenshot) (sl : ℚ)
    (out : OrchState × List Event × ℚ) (h : execPhase st env stu sl = some out) :
    out.1.cached_plan_key = st.cached_plan_key := by
  unfold execPhase at h
  split at h
  · simp only [Option.some.injEq] at h
    rw [← h]
  · dsimp only at h
    split at h
    · exact absurd h (by simp)
    · simp only [Option.some.injEq] at h
      rw [← h]

theorem execPhase_calls (st : OrchState) (env : TickEnv) (stu : Option Screenshot) (sl : ℚ)
    (out : OrchState × List Event × ℚ) (h : execPhase st env stu sl = some out) :
    countPlannerCalls out.2.1 = 0 := by
  unfold execPhase at h
  split at h
  · simp only [Option.some.injEq] at h
    rw [← h]
    rfl
  · dsimp only at h
    split at h
    · exact absurd h (by simp)
    · simp only [Option.some.injEq] at h
      rw [← h]
      simp only [countPlannerCalls_append, countPlannerCalls_map_adapter, logFold_calls]

theorem planDecision_cached_key (stB : OrchState) (key : String)
    (p : Option (List (String × JVal))) :
    (planDecision stB key p).st.cached_plan_key = some key := by
  unfold planDecision
  split_ifs with h1 h2
  · exact h1
  · exact h1
  · rfl

theorem planDecision_calls (stB : OrchState) (key : String)
    (p : Option (List (String × JVal))) :
    countPlannerCalls (planDecision stB key p).events ≤ 1 := by
  unfold planDecision
  split_ifs <;> simp [countPlannerCalls]

theorem planDecision_hit_fresh (stB : OrchState) (key : String)
    (p : Option (List (String × JVal))) (h : stB.cached_plan_key = some key)
    (hc : (stB.cached_plan_response.isSome && !stB.cached_plan_consumed) = true) :
    planDecision stB key p =
      { plan_response := stB.cached_plan_response, st := stB,
        events := [.planObtained stB.cached_plan_response], sleepHint := mkRat 1 2 } := by
  unfold planDecision
  rw [if_pos h]
  simp [hc]

theorem planDecision_hit_stale (stB : OrchState) (key : String)
    (p : Option (List (String × JVal))) (h : stB.cached_plan_key = some key)
    (hc : (stB.cached_plan_response.isSome && !stB.cached_plan_consumed) = false) :
    planDecision stB key p =
      { plan_response := none, st := stB,
        events := [.planObtained none], sleepHint := mkRat 1 5 } := by
  unfold planDecision
  rw [if_pos h]
  simp [hc]

/-! ## C9 — sleeping outside the activity window -/

/-- C9: when both window bounds are set and the current local time is
outside the window, the tick marks the state SLEEPING, makes no
planning call, performs no Input Adapter action, decays the affect
vector, overwrites the monologue with the reflection text, writes
exactly one snapshot, and ends by sleeping 5 seconds. -/
theorem c9_sleeping_tick (st : OrchState) (env : TickEnv) (a b : ℕ)
    (hs : st.state.active_window_start = some a)
    (ht : st.state.active_window_stop = some b)
    (hout : ¬(a * 60 ≤ env.nowSec ∧ env.nowSec ≤ b * 60)) :
    tickBody st env = some
      ({ st with state :=
          (({ st.state with agent_status := "SLEEPING" }).decay_emotions
            (mkRat 3 100)).update_monologue "Sleeping and reflecting on recent actions." },
        [Event.stateSave, Event.stateSave, Event.snapshot, Event.sleepFor (qOfNat 5)]) ∧
    ∀ (st2 : OrchState) (tr : List Event), tickBody st env = some (st2, tr) →
      st2.state.agent_status = "SLEEPING" ∧
      countPlannerCalls tr = 0 ∧
      (∀ e : Effect, Event.adapterOp e ∉ tr) ∧
      countSnapshots tr = 1 ∧
      tr.getLast? = some (Event.sleepFor (qOfNat 5)) ∧
      st2.state.emotion_vector = (st.state.decay_emotions (mkRat 3 100)).emotion_vector ∧
      st2.state.inner_monologue_summary = "Sleeping and reflecting on recent actions." := by
  have hw : inActiveWindow st.state.active_window_start st.state.active_window_stop env.nowSec
      = false := by
    rw [hs, ht]
    simp only [inActiveWindow]
    rcases not_and_or.mp hout with h | h
    · simp [decide_eq_false h]
    · simp [decide_eq_false h]
  have hmain : tickBody st env = some
      ({ st with state :=
          (({ st.state with agent_status := "SLEEPING" }).decay_emotions
            (mkRat 3 100)).update_monologue "Sleeping and reflecting on recent actions." },
        [Event.stateSave, Event.stateSave, Event.snapshot, Event.sleepFor (qOfNat 5)]) := by
    unfold tickBody
    rw [hw]
    simp only [Bool.false_eq_true, if_false]
    rfl
  refine ⟨hmain, ?_⟩
  intro st2 tr h2
  rw [hmain] at h2
  simp only [Option.some.injEq, Prod.mk.injEq] at h2
  obtain ⟨h2a, h2b⟩ := h2
  subst h2a
  subst h2b
  refine ⟨rfl, rfl, ?_, rfl, rfl, rfl, rfl⟩
  intro e
  simp

/-- C9 witness: window `09:00`–`17:00` (minutes 540–1020), local time
`20:00` (second 72000). -/
theorem c9_witness :
    tickBody st9 env9 = some
      ({ st9 with state :=
          (({ st9.state with agent_status := "SLEEPING" }).decay_emotions
            (mkRat 3 100)).update_monologue "Sleeping and reflecting on recent actions." },
        [Event.stateSave, Event.stateSave, Event.snapshot, Event.sleepFor (qOfNat 5)]) ∧
    ∀ (st2 : OrchState) (tr : List Event), tickBody st9 env9 = some (st2, tr) →
      st2.state.agent_status = "SLEEPING" ∧
      countPlannerCalls tr = 0 ∧
      (∀ e : Effect, Event.adapterOp e ∉ tr) ∧
      countSnapshots tr = 1 ∧
      tr.getLast? = some (Event.sleepFor (qOfNat 5)) ∧
      st2.state.emotion_vector = (st9.state.decay_emotions (mkRat 3 100)).emotion_vector ∧
      st2.state.inner_monologue_summary = "Sleeping and reflecting on recent actions." :=
  c9_sleeping_tick st9 env9 540 1020 rfl rfl (by decide)

theorem activeTick_pending_empty_spec (st : OrchState) (env : TickEnv)
    (st2 : OrchState) (tr : List Event) (hp : st.pending_actions = [])
    (h : activeTick st env = some (st2, tr)) :
    st2.cached_plan_key = some (tickKey st env) ∧ countPlannerCalls tr ≤ 1 := by
  unfold activeTick at h
  dsimp only at h
  rw [afterCapture_pending st env, hp] at h
  dsimp only at h
  cases hpd : (planDecision (afterCapture st env).2 (tickKey st env) env.planner).plan_response with
  | some resp =>
      rw [hpd] at h
      dsimp only at h
      cases hpa : parse_actions resp (mkRat 11 20) with
      | none =>
          rw [hpa] at h
          exact absurd h (by simp)
      | some actions =>
          rw [hpa] at h
          dsimp only at h
          cases hep : execPhase
              ({ (planDecision (afterCapture st env).2 (tickKey st env) env.planner).st with
                  pending_actions :=
                    (planDecision (afterCapture st env).2 (tickKey st env) env.planner).st.pending_actions ++
                      actions.filter
                        (fun a => a.action == "WAIT" || decide (mkRat 11 20 ≤ a.confidence)) })
              env (screenshotToUse st env)
              (planDecision (afterCapture st env).2 (tickKey st env) env.planner).sleepHint with
          | none =>
              rw [hep] at h
              exact absurd h (by simp)
          | some execOut =>
              rw [hep] at h
              dsimp only at h
              simp only [Option.some.injEq, Prod.mk.injEq] at h
              obtain ⟨h2a, h2b⟩ := h
              constructor
              · rw [← h2a]
                show execOut.1.cached_plan_key = _
                rw [execPhase_cached_key _ env _ _ execOut hep]
                exact planDecision_cached_key _ _ _
              · rw [← h2b]
                simp only [List.append_eq, List.nil_append, List.cons_append,
                  countPlannerCalls_append, countPlannerCalls,
                  execPhase_calls _ env _ _ execOut hep]
                have := planDecision_calls (afterCapture st env).2 (tickKey st env) env.planner
                omega
  | none =>
      rw [hpd] at h
      dsimp only at h
      cases hep : execPhase
          (planDecision (afterCapture st env).2 (tickKey st env) env.planner).st
          env (screenshotToUse st env) (mkRat 1 5) with
      | none =>
          rw [hep] at h
          exact absurd h (by simp)
      | some execOut =>
          rw [hep] at h
          dsimp only at h
          simp only [Option.some.injEq, Prod.mk.injEq] at h
          obtain ⟨h2a, h2b⟩ := h
          constructor
          · rw [← h2a]
            show execOut.1.cached_plan_key = _
            rw [execPhase_cached_key _ env _ _ execOut hep]
            exact planDecision_cached_key _ _ _
          · rw [← h2b]
            simp only [List.append_eq, List.nil_append, List.cons_append,
              countPlannerCalls_append, countPlannerCalls,
              execPhase_calls _ env _ _ execOut hep]
            have := planDecision_calls (afterCapture st env).2 (tickKey st env) env.planner
            omega

/-! ## C1 — plan-cache idempotence across two ticks -/

/-- C1: over two consecutive active ticks that both start with no
pending steps and compute the identical context fingerprint, the
Planner Port is invoked at most once in total and never in the second
tick; the second tick either obtains the cached response unmodified
(cached plan present and not yet consumed) or obtains no plan and ends
with the short `0.2` second sleep (cached plan consumed or absent). -/
theorem c1_plan_cache_single_invocation
    (st1 : OrchState) (env1 env2 : TickEnv) (st2 : OrchState) (tr1 : List Event)
    (st3 : OrchState) (tr2 : List Event)
    (hw1 : inActiveWindow st1.state.active_window_start st1.state.active_window_stop
      env1.nowSec = true)
    (hp1 : st1.pending_actions = [])
    (h1 : tickBody st1 env1 = some (st2, tr1))
    (hw2 : inActiveWindow st2.state.active_window_start st2.state.active_window_stop
      env2.nowSec = true)
    (hp2 : st2.pending_actions = [])
    (h2 : tickBody st2 env2 = some (st3, tr2))
    (hkey : tickKey st2 env2 = tickKey st1 env1) :
    countPlannerCalls tr2 = 0 ∧
    countPlannerCalls tr1 + countPlannerCalls tr2 ≤ 1 ∧
    ((st2.cached_plan_response.isSome = true ∧ st2.cached_plan_consumed = false ∧
        Event.planObtained st2.cached_plan_response ∈ tr2) ∨
      ((st2.cached_plan_response = none ∨ st2.cached_plan_consumed = true) ∧
        Event.planObtained none ∈ tr2 ∧ Event.sleepFor (mkRat 1 5) ∈ tr2)) := by
  have ht1 : tickBody st1 env1 = activeTick st1 env1 := by
    unfold tickBody
    rw [hw1]
    exact if_pos rfl
  have ht2 : tickBody st2 env2 = activeTick st2 env2 := by
    unfold tickBody
    rw [hw2]
    exact if_pos rfl
  rw [ht1] at h1
  rw [ht2] at h2
  obtain ⟨hck, hcalls1⟩ := activeTick_pending_empty_spec st1 env1 st2 tr1 hp1 h1
  have hckB : (afterCapture st2 env2).2.cached_plan_key = some (tickKey st2 env2) := by
    rw [afterCapture_cached_key, hck, hkey]
  have hres2 : (afterCapture st2 env2).2.cached_plan_response = st2.cached_plan_response :=
    afterCapture_cached_response st2 env2
  have hcons2 : (afterCapture st2 env2).2.cached_plan_consumed = st2.cached_plan_consumed :=
    afterCapture_cached_consumed st2 env2
  have hpe2 : (afterCapture st2 env2).2.pending_actions = [] := by
    rw [afterCapture_pending]
    exact hp2
  unfold activeTick at h2
  dsimp only at h2
  rw [hpe2] at h2
  dsimp only at h2
  cases hcond : (st2.cached_plan_response.isSome && !st2.cached_plan_consumed) with
  | true =>
      rw [planDecision_hit_fresh _ _ env2.planner hckB (by rw [hres2, hcons2]; exact hcond)]
        at h2
      dsimp only at h2
      have hboth : st2.cached_plan_response.isSome = true ∧
          (!st2.cached_plan_consumed) = true := by
        have hb := hcond
        rw [Bool.and_eq_true] at hb
        exact hb
      have hIsSome : st2.cached_plan_response.isSome = true := hboth.1
      have hNotCons : st2.cached_plan_consumed = false := by
        have hb2 := hboth.2
        cases hcc : st2.cached_plan_consumed
        · rfl
        · rw [hcc] at hb2
          simp at hb2
      obtain ⟨resp, hresp⟩ := Option.isSome_iff_exists.mp hIsSome
      rw [hres2, hresp] at h2
      dsimp only at h2
      cases hpa : parse_actions resp (mkRat 11 20) with
      | none =>
          rw [hpa] at h2
          exact absurd h2 (by simp)
      | some actions =>
          rw [hpa] at h2
          dsimp only at h2
          split at h2
          · exact absurd h2 (by simp)
          · rename_i execOut heq
            simp only [Option.some.injEq, Prod.mk.injEq] at h2
            obtain ⟨h2a, h2b⟩ := h2
            have hc2 : countPlannerCalls tr2 = 0 := by
              rw [← h2b]
              simp only [List.append_eq, List.nil_append, List.cons_append,
                countPlannerCalls_append, countPlannerCalls,
                execPhase_calls _ env2 _ _ execOut heq]
            refine ⟨hc2, by omega, Or.inl ⟨hIsSome, hNotCons, ?_⟩⟩
            rw [← h2b, hresp]
            simp
  | false =>
      rw [planDecision_hit_stale _ _ env2.planner hckB (by rw [hres2, hcons2]; exact hcond)]
        at h2
      dsimp only at h2
      rw [execPhase_empty _ env2 _ _ hpe2] at h2
      dsimp only at h2
      simp only [Option.some.injEq, Prod.mk.injEq] at h2
      obtain ⟨h2a, h2b⟩ := h2
      have hside : st2.cached_plan_response = none ∨ st2.cached_plan_consumed = true := by
        cases hcr : st2.cached_plan_response with
        | none => exact Or.inl rfl
        | some v =>
            right
            cases hcc : st2.cached_plan_consumed
            · exfalso
              rw [hcr, hcc] at hcond
              simp at hcond
            · rfl
      have hc2 : countPlannerCalls tr2 = 0 := by
        rw [← h2b]
        rfl
      refine ⟨hc2, by omega, Or.inr ⟨hside, ?_, ?_⟩⟩
      · rw [← h2b]
        simp
      · rw [← h2b]
        simp

/-- C1 witness: a concrete two-tick run — always-active window, one
planner call in the first tick, identical fingerprint in the second. -/
theorem c1_witness :
    countPlannerCalls w3pair.2 = 0 ∧
    countPlannerCalls w2pair.2 + countPlannerCalls w3pair.2 ≤ 1 ∧
    ((w2pair.1.cached_plan_response.isSome = true ∧ w2pair.1.cached_plan_consumed = false ∧
        Event.planObtained w2pair.1.cached_plan_response ∈ w3pair.2) ∨
      ((w2pair.1.cached_plan_response = none ∨ w2pair.1.cached_plan_consumed = true) ∧
        Event.planObtained none ∈ w3pair.2 ∧ Event.sleepFor (mkRat 1 5) ∈ w3pair.2)) :=
  c1_plan_cache_single_invocation st1c env1c env2c w2pair.1 w2pair.2 w3pair.1 w3pair.2
    rfl rfl rfl rfl rfl rfl rfl
